import Mathlib

/-!
Verification of the conversation state manager of the chat-sdk repository
(`createConversation` and its helpers). The data model and every operation
are shallowly embedded from the TypeScript source: wall-clock timestamps
(`new Date().getTime()`) become an explicit `Time` argument, JavaScript
`undefined`-able fields become `Option`, arrays become `List`, and the
subscriber registry (functions compared by reference identity) is modelled
as a list of identities with decidable equality. The asynchronous
`.then(messageResposeHandler).catch(failureHandler)` continuations are
modelled by applying the corresponding handler function to the state when
the reply or failure arrives; the synchronous part of each public
operation (everything up to and including the dispatch of the outbound
body) is one pure function from state to state plus outbound body.
-/

namespace ChatSDK

/-- Wall-clock timestamp (`Time = number` in the source). -/
abbrev Time := Nat

/-- Opaque key-value map (`Record<string, any>` in the source); the manager
only passes it through, so entries are modelled as string pairs. -/
abbrev ContextMap := List (String × String)

/-- `Choice {choiceId, choiceText}` from the source. -/
structure Choice where
  choiceId : String
  choiceText : String
deriving DecidableEq, Repr

/-- `BotMessage` from the source. -/
structure BotMessage where
  messageId : Option String
  text : String
  choices : List Choice
  selectedChoiceId : Option String
deriving DecidableEq, Repr

/-- `BotResponseMetadata` from the source. -/
structure BotResponseMetadata where
  intentId : Option String
  escalation : Option Bool
  frustration : Option Bool
  incomprehension : Option Bool
deriving DecidableEq, Repr

/-- `BotResponsePayload` from the source. -/
structure BotResponsePayload where
  conversationId : Option String
  messages : List BotMessage
  metadata : Option BotResponseMetadata
  payload : Option String
  context : Option ContextMap
deriving DecidableEq, Repr

/-- `UserResponsePayload` from the source: tagged union of a text turn and
a choice turn. -/
inductive UserResponsePayload where
  | text (text : String)
  | choice (choiceId : String)
deriving DecidableEq, Repr

/-- `Response = BotResponse | UserResponse` from the source, with the
`receivedAt` timestamp. -/
inductive Response where
  | bot (receivedAt : Time) (payload : BotResponsePayload)
  | user (receivedAt : Time) (payload : UserResponsePayload)
deriving DecidableEq, Repr

/-- `State = Response[]`: the externally visible timeline. -/
abbrev State := List Response

/-- A slot in a structured request (`{slotId, value}`; `value: any` is
opaque passthrough, modelled as a string). -/
structure Slot where
  slotId : String
  value : String
deriving DecidableEq, Repr

/-- `StructuredRequest` from the source. -/
structure StructuredRequest where
  choiceId : Option String
  intentId : Option String
  slots : Option (List Slot)
deriving DecidableEq, Repr

/-- The `request` field of an outbound body: `{unstructured:{text}}` or
`{structured:{...}}`. -/
inductive RequestPayload where
  | unstructured (text : String)
  | structured (s : StructuredRequest)
deriving DecidableEq, Repr

/-- The body each operation hands to `sendToBot` before augmentation:
`{userId, conversationId, request}`. -/
structure RequestBody where
  userId : Option String
  conversationId : Option String
  request : RequestPayload
deriving DecidableEq, Repr

/-- The fully assembled outbound wire body (`bodyWithContext` in
`sendToBot`): the optional one-shot `context`, the operation body, and the
constant passthrough fields. -/
structure OutboundBody where
  context : Option ContextMap
  userId : Option String
  conversationId : Option String
  request : RequestPayload
  languageCode : Option String
  channelType : Option String
deriving DecidableEq, Repr

/-- `Config` from the source (transport-irrelevant rendering options
omitted; `experimental.channelType` is flattened into `channelType`). -/
structure Config where
  botUrl : String
  userId : Option String
  failureMessages : Option (List String)
  greetingMessages : Option (List String)
  context : Option ContextMap
  triggerWelcomeIntent : Bool
  languageCode : Option String
  channelType : Option String
deriving DecidableEq, Repr

/-- `defaultFailureMessages` from the source. -/
def defaultFailureMessages : List String :=
  ["We encountered an issue while contacting the server. Please try again in a few moments."]

/-- `InternalState` from the source. -/
structure InternalState where
  responses : List Response
  conversationId : Option String
  userId : Option String
  contextSent : Bool
deriving DecidableEq, Repr

/-- The initial `InternalState` built at the top of `createConversation`:
optionally seeded with a synthetic greeting bot turn (only when
`greetingMessages` is present and non-empty), `userId` from the config,
no `conversationId`, `contextSent` false. -/
def initialState (t : Time) (config : Config) : InternalState :=
  { responses :=
      match config.greetingMessages with
      | some greetings =>
          if greetings.length > 0 then
            [Response.bot t
              { conversationId := none
              , messages := greetings.map (fun greetingMessage =>
                  { messageId := none
                  , text := greetingMessage
                  , choices := []
                  , selectedChoiceId := none })
              , metadata := none
              , payload := none
              , context := none }]
          else []
      | none => []
  , userId := config.userId
  , conversationId := none
  , contextSent := false }

/-- `failureHandler` from the source: appends one synthesized bot response
whose messages are the configured `failureMessages` (a configured value,
even an empty list, is used as-is; only an absent configuration falls back
to `defaultFailureMessages`), each with empty choices and no ids. -/
def failureHandler (t : Time) (config : Config) (state : InternalState) : InternalState :=
  { state with responses :=
      state.responses ++
        [Response.bot t
          { conversationId := none
          , messages :=
              (match config.failureMessages with
               | some msgs => msgs
               | none => defaultFailureMessages).map
                (fun messageBody =>
                  { messageId := none
                  , text := messageBody
                  , choices := []
                  , selectedChoiceId := none })
          , metadata := none
          , payload := none
          , context := none }] }

/-- A raw inbound message as decoded from the wire (`message: any` in
`messageResposeHandler`); `choices` may be absent. -/
structure RawMessage where
  messageId : Option String
  text : String
  choices : Option (List Choice)
deriving DecidableEq, Repr

/-- A raw inbound reply as decoded from the wire (`response: any` in
`messageResposeHandler`); the streaming transport's synchronous result is
the pending sentinel `{isPending: true}`. -/
structure RawReply where
  isPending : Bool
  conversationId : Option String
  messages : List RawMessage
  metadata : Option BotResponseMetadata
  payload : Option String
  context : Option ContextMap
deriving DecidableEq, Repr

/-- The state update `messageResposeHandler` passes to `setState`, or
`none` when the guard `response && !response.isPending` fails and
`setState` is never called (`none` as the reply models a falsy
`null`/`undefined` value). -/
def messageResposeHandlerStep (t : Time) (reply : Option RawReply)
    (state : InternalState) : Option InternalState :=
  match reply with
  | none => none
  | some response =>
      if response.isPending then none
      else
        some
          { state with
            conversationId := response.conversationId
          , responses :=
              state.responses ++
                [Response.bot t
                  { conversationId := response.conversationId
                  , messages := response.messages.map (fun message =>
                      { messageId := message.messageId
                      , text := message.text
                      , choices := message.choices.getD []
                      , selectedChoiceId := none })
                  , metadata := response.metadata
                  , payload := response.payload
                  , context := response.context }] }

/-- `messageResposeHandler` from the source as a total state transformer:
the state after the handler runs (unchanged when `setState` was not
called). -/
def messageResposeHandler (t : Time) (reply : Option RawReply)
    (state : InternalState) : InternalState :=
  (messageResposeHandlerStep t reply state).getD state

/-- The synchronous part of `sendToBot` from the source: assemble
`bodyWithContext` (merging the configured context exactly when one is
configured and `contextSent` is still false), then flip `contextSent`
to true if it was false. Returns the new state and the outbound body. -/
def sendToBot (config : Config) (state : InternalState) (body : RequestBody) :
    InternalState × OutboundBody :=
  let bodyWithContext : OutboundBody :=
    { context :=
        if config.context.isSome && !state.contextSent then config.context else none
    , userId := body.userId
    , conversationId := body.conversationId
    , request := body.request
    , languageCode := config.languageCode
    , channelType := config.channelType }
  let state1 :=
    if !state.contextSent then { state with contextSent := true } else state
  (state1, bodyWithContext)

/-- The synchronous part of `sendText` from the source: optimistically
append the user text turn, then dispatch. -/
def sendTextOp (t : Time) (config : Config) (text : String)
    (state : InternalState) : InternalState × OutboundBody :=
  let state1 :=
    { state with responses :=
        state.responses ++ [Response.user t (UserResponsePayload.text text)] }
  sendToBot config state1
    { userId := state1.userId
    , conversationId := state1.conversationId
    , request := RequestPayload.unstructured text }

/-- The per-message rewrite inside `sendChoice`: stamp `selectedChoiceId`
with the chosen id when this message's choices contain it, otherwise keep
the previous value. -/
def stampMessage (choiceId : String) (botMessage : BotMessage) : BotMessage :=
  { botMessage with selectedChoiceId :=
      if (botMessage.choices.map Choice.choiceId).contains choiceId then some choiceId
      else botMessage.selectedChoiceId }

/-- The per-response rewrite inside `sendChoice`: map the stamp over a bot
response's messages; user responses pass through unchanged. -/
def stampResponse (choiceId : String) (response : Response) : Response :=
  match response with
  | Response.bot t p =>
      Response.bot t { p with messages := p.messages.map (stampMessage choiceId) }
  | Response.user t p => Response.user t p

/-- The `newResponses` computation of `sendChoice`: rewrite the whole
timeline, then append the user choice turn. -/
def sendChoiceResponses (t : Time) (choiceId : String) (responses : List Response) :
    List Response :=
  responses.map (stampResponse choiceId) ++
    [Response.user t (UserResponsePayload.choice choiceId)]

/-- The synchronous part of `sendChoice` from the source: rewrite and
append via `sendChoiceResponses`, then dispatch a structured choice
request. -/
def sendChoiceOp (t : Time) (config : Config) (choiceId : String)
    (state : InternalState) : InternalState × OutboundBody :=
  let state1 :=
    { state with responses := sendChoiceResponses t choiceId state.responses }
  sendToBot config state1
    { userId := state1.userId
    , conversationId := state1.conversationId
    , request := RequestPayload.structured
        { choiceId := some choiceId, intentId := none, slots := none } }

/-- The synchronous part of `sendIntent` from the source: dispatch only. -/
def sendIntentOp (config : Config) (intentId : String)
    (state : InternalState) : InternalState × OutboundBody :=
  sendToBot config state
    { userId := state.userId
    , conversationId := state.conversationId
    , request := RequestPayload.structured
        { choiceId := none, intentId := some intentId, slots := none } }

/-- The synchronous part of `sendSlots` from the source: dispatch only. -/
def sendSlotsOp (config : Config) (slots : List Slot)
    (state : InternalState) : InternalState × OutboundBody :=
  sendToBot config state
    { userId := state.userId
    , conversationId := state.conversationId
    , request := RequestPayload.structured
        { choiceId := none, intentId := none, slots := some slots } }

/-- The synchronous part of `sendStructured` from the source: dispatch
only. -/
def sendStructuredOp (config : Config) (structured : StructuredRequest)
    (state : InternalState) : InternalState × OutboundBody :=
  sendToBot config state
    { userId := state.userId
    , conversationId := state.conversationId
    , request := RequestPayload.structured structured }

/-- `currentConversationId` from the source. -/
def currentConversationId (state : InternalState) : Option String :=
  state.conversationId

/-- `reset` from the source: `setState({conversationId: undefined})`. -/
def reset (state : InternalState) : InternalState :=
  { state with conversationId := none }

/-- A subscriber identity: the source compares subscriber functions by
reference (`fn !== subscriber`), so subscribers are modelled by an
identity token with decidable equality. -/
abbrev SubscriberId := Nat

/-- `subscribe` from the source, restricted to the registry update:
`subscribers = [...subscribers, subscriber]`. -/
def subscribe (subscribers : List SubscriberId) (subscriber : SubscriberId) :
    List SubscriberId :=
  subscribers ++ [subscriber]

/-- `unsubscribe` from the source:
`subscribers = subscribers.filter((fn) => fn !== subscriber)`. -/
def unsubscribe (subscribers : List SubscriberId) (subscriber : SubscriberId) :
    List SubscriberId :=
  subscribers.filter (fun fn => fn != subscriber)

/-- An inbound frame on the streaming transport: `e.data` is either a
string or something else (the source only acts on strings). -/
inductive FrameData where
  | str (s : String)
  | binary
deriving DecidableEq, Repr

/-- The outcome of `JSON.parse` on a frame string: it throws on malformed
input, otherwise yields a value (a falsy `null` is modelled as
`value none`). -/
inductive ParseOutcome where
  | throw
  | value (v : Option RawReply)
deriving DecidableEq, Repr

/-- `socket.onmessage` from the source: non-string frames are ignored;
string frames are fed to `JSON.parse` (modelled by the `parse` argument)
with no surrounding try/catch, so a parse throw escapes the handler
(`Except.error`); a parsed value goes through `messageResposeHandler`. -/
def onmessage (t : Time) (parse : String → ParseOutcome) (data : FrameData)
    (state : InternalState) : Except Unit InternalState :=
  match data with
  | FrameData.binary => Except.ok state
  | FrameData.str s =>
      match parse s with
      | ParseOutcome.throw => Except.error ()
      | ParseOutcome.value v => Except.ok (messageResposeHandler t v state)

/-! Helper lemmas shared by the claim theorems. -/

/-- Stamping a message with the same choice twice equals stamping once:
the rewrite does not change the `choices` list, so the containment test
gives the same answer on the second pass. -/
theorem stampMessage_idem (c : String) (m : BotMessage) :
    stampMessage c (stampMessage c m) = stampMessage c m := by
  cases h : (m.choices.map Choice.choiceId).contains c with
  | true =>
      have h1 : stampMessage c m = { m with selectedChoiceId := some c } := by
        unfold stampMessage; rw [h]; rfl
      rw [h1]
      unfold stampMessage
      rw [show ((({ m with selectedChoiceId := some c } : BotMessage)).choices.map
        Choice.choiceId).contains c = true from h]
      rfl
  | false =>
      have h1 : stampMessage c m = m := by
        unfold stampMessage; rw [h]; rfl
      rw [h1, h1]

/-- Stamping is the identity on messages that do not offer the choice. -/
theorem stampMessage_not_offered (c : String) (m : BotMessage)
    (h : (m.choices.map Choice.choiceId).contains c = false) :
    stampMessage c m = m := by
  unfold stampMessage; rw [h]; rfl

/-- Per-response stamping is idempotent. -/
theorem stampResponse_idem (c : String) (r : Response) :
    stampResponse c (stampResponse c r) = stampResponse c r := by
  cases r with
  | bot t p => simp [stampResponse, List.map_map, Function.comp, stampMessage_idem]
  | user t p => rfl

/-- Per-response stamping leaves user turns unchanged. -/
theorem stampResponse_user (c : String) (t : Time) (p : UserResponsePayload) :
    stampResponse c (Response.user t p) = Response.user t p := rfl

/-- The synchronous `sendToBot` step never touches the timeline. -/
theorem sendToBot_responses (config : Config) (st : InternalState) (body : RequestBody) :
    ((sendToBot config st body).1).responses = st.responses := by
  cases h : st.contextSent <;> simp [sendToBot, h]

/-- The synchronous `sendToBot` step never touches `conversationId`. -/
theorem sendToBot_conversationId (config : Config) (st : InternalState) (body : RequestBody) :
    ((sendToBot config st body).1).conversationId = st.conversationId := by
  cases h : st.contextSent <;> simp [sendToBot, h]

/-- After any synchronous `sendToBot` step, `contextSent` is true. -/
theorem sendToBot_contextSent (config : Config) (st : InternalState) (body : RequestBody) :
    ((sendToBot config st body).1).contextSent = true := by
  cases h : st.contextSent <;> simp [sendToBot, h]

/-- The timeline after the synchronous part of `sendChoice`: the whole-state
operation updates `responses` exactly via `sendChoiceResponses`. -/
theorem sendChoiceOp_responses (t : Time) (config : Config) (c : String)
    (st : InternalState) :
    ((sendChoiceOp t config c st).1).responses = sendChoiceResponses t c st.responses := by
  simp [sendChoiceOp, sendToBot_responses]

/-- Removing every occurrence of `f` shortens the registry by exactly the
number of registrations of `f`. -/
theorem length_filter_ne_add_count (l : List SubscriberId) (f : SubscriberId) :
    (l.filter (fun x => x != f)).length + l.count f = l.length := by
  induction l with
  | nil => rfl
  | cons a l ih =>
      by_cases haf : a = f <;>
        simp [List.filter_cons, List.count_cons, haf] <;> omega

/-- Filtering out `f` preserves the registration count of every other
identity and zeroes the count of `f` itself. -/
theorem count_filter_ne (l : List SubscriberId) (f g : SubscriberId) :
    (l.filter (fun x => x != f)).count g = (if g = f then 0 else l.count g) := by
  induction l with
  | nil => simp
  | cons a l ih =>
      by_cases haf : a = f
      · subst haf
        rw [List.filter_cons_of_neg (by simp), ih]
        by_cases hg : g = a
        · simp [hg]
        · simp [List.count_cons, hg]
      · rw [List.filter_cons_of_pos (by simp [haf]), List.count_cons, List.count_cons, ih]
        by_cases hg : g = f
        · have hga : g ≠ a := by
            intro hh
            exact haf (hh ▸ hg)
          simp [hg, hga, haf]
        · simp [hg]

/-! Claim theorems. -/

/-- Claim C1: `sendChoice(choiceId)` first rewrites every existing bot
message across the whole timeline — a message whose choices contain
`choiceId` gets `selectedChoiceId := choiceId`, a message not offering it
is left completely untouched, and user turns pass through unchanged — and
then appends one `UserResponse{type:"choice", choiceId}` at the very end;
the dispatched outbound request is the structured choice request. -/
theorem sendChoice_stamps_then_appends (t : Time) (config : Config) (c : String)
    (st : InternalState) (m : BotMessage) :
    ((sendChoiceOp t config c st).1).responses
      = st.responses.map (stampResponse c) ++
          [Response.user t (UserResponsePayload.choice c)]
    ∧ stampMessage c m =
        (if (m.choices.map Choice.choiceId).contains c then
          { m with selectedChoiceId := some c }
        else m)
    ∧ (∀ t0 p, stampResponse c (Response.user t0 p) = Response.user t0 p)
    ∧ (sendChoiceOp t config c st).2.request =
        RequestPayload.structured { choiceId := some c, intentId := none, slots := none } := by
  refine ⟨?_, ?_, ?_, ?_⟩
  · rw [sendChoiceOp_responses]; rfl
  · cases h : (m.choices.map Choice.choiceId).contains c <;>
      (unfold stampMessage; rw [h]; rfl)
  · intro t0 p; rfl
  · rfl

/-- Claim C2 counterexample: with `conversationId` already set to `"c1"`,
a later genuine bot reply carrying `conversationId:"c2"` changes the
stored id — refuting that, once set, the id never changes via normal
message flow. -/
theorem conversationId_overwritten_cex :
    (messageResposeHandler 0
        (some { isPending := false, conversationId := some "c2", messages := []
              , metadata := none, payload := none, context := none })
        { responses := [], conversationId := some "c1", userId := none
        , contextSent := false }).conversationId ≠ some "c1" := by
  decide

/-- Claim C2 amended: `conversationId` is undefined at construction; the
dispatch steps, the failure handler, and falsy or pending replies leave it
unchanged; every genuine (non-pending) bot reply sets it to that reply's
`conversationId` — so it can change when a later reply carries a different
id — and `reset()` clears it to undefined. -/
theorem conversationId_lifecycle (t : Time) (config : Config) (st : InternalState)
    (body : RequestBody) (text c intentId : String) (slots : List Slot)
    (structured : StructuredRequest) (r : RawReply) :
    (initialState t config).conversationId = none
    ∧ messageResposeHandler t none st = st
    ∧ (messageResposeHandler t (some r) st).conversationId =
        (if r.isPending then st.conversationId else r.conversationId)
    ∧ ((sendToBot config st body).1).conversationId = st.conversationId
    ∧ ((sendTextOp t config text st).1).conversationId = st.conversationId
    ∧ ((sendChoiceOp t config c st).1).conversationId = st.conversationId
    ∧ ((sendIntentOp config intentId st).1).conversationId = st.conversationId
    ∧ ((sendSlotsOp config slots st).1).conversationId = st.conversationId
    ∧ ((sendStructuredOp config structured st).1).conversationId = st.conversationId
    ∧ (failureHandler t config st).conversationId = st.conversationId
    ∧ (reset st).conversationId = none := by
  refine ⟨rfl, rfl, ?_, sendToBot_conversationId .., ?_, ?_, ?_, ?_, ?_, rfl, rfl⟩
  · cases hp : r.isPending <;>
      simp [messageResposeHandler, messageResposeHandlerStep, hp]
  · simp [sendTextOp, sendToBot_conversationId]
  · simp [sendChoiceOp, sendToBot_conversationId]
  · simp [sendIntentOp, sendToBot_conversationId]
  · simp [sendSlotsOp, sendToBot_conversationId]
  · simp [sendStructuredOp, sendToBot_conversationId]

/-- Claim C3: for a manager configured with a context map, `contextSent`
starts false and flips to true on the first dispatch and stays true; the
outbound body carries the configured context exactly when `contextSent`
is still false at dispatch (hence on the first dispatched call only) and
never on a later call; the flip is never undone — in particular the
failure handler, the reply handler, and `reset` all preserve
`contextSent`, so the augmentation is not repeated even if the first send
fails. -/
theorem contextSent_oneShot (config : Config) (ctx : ContextMap) (st : InternalState)
    (body body2 : RequestBody) (t : Time) (reply : Option RawReply)
    (h : config.context = some ctx) :
    (initialState t config).contextSent = false
    ∧ ((sendToBot config st body).2).context =
        (if st.contextSent then none else some ctx)
    ∧ ((sendToBot config st body).1).contextSent = true
    ∧ ((sendToBot config ((sendToBot config st body).1) body2).2).context = none
    ∧ (failureHandler t config st).contextSent = st.contextSent
    ∧ (messageResposeHandler t reply st).contextSent = st.contextSent
    ∧ (reset st).contextSent = st.contextSent := by
  refine ⟨rfl, ?_, sendToBot_contextSent .., ?_, rfl, ?_, rfl⟩
  · cases hc : st.contextSent <;> simp [sendToBot, h, hc]
  · have h1 := sendToBot_contextSent config st body
    revert h1
    generalize (sendToBot config st body).1 = st2
    intro h1
    simp [sendToBot, h1]
  · cases reply with
    | none => rfl
    | some r =>
        cases hp : r.isPending <;>
          simp [messageResposeHandler, messageResposeHandlerStep, hp]

/-- Claim C3 witness: the one-shot context behaviour evaluated on a
concrete configuration carrying the context map `[("k","v")]`, a fresh
internal state, and a concrete outbound body. -/
theorem contextSent_oneShot_witness :
    ({ botUrl := "https://bot.example", userId := none, failureMessages := none
     , greetingMessages := none, context := some [("k", "v")]
     , triggerWelcomeIntent := false, languageCode := none
     , channelType := none } : Config).context = some [("k", "v")]
    ∧ ((initialState 0
          { botUrl := "https://bot.example", userId := none, failureMessages := none
          , greetingMessages := none, context := some [("k", "v")]
          , triggerWelcomeIntent := false, languageCode := none
          , channelType := none }).contextSent = false
    ∧ ((sendToBot
          { botUrl := "https://bot.example", userId := none, failureMessages := none
          , greetingMessages := none, context := some [("k", "v")]
          , triggerWelcomeIntent := false, languageCode := none
          , channelType := none }
          { responses := [], conversationId := none, userId := none, contextSent := false }
          { userId := none, conversationId := none
          , request := RequestPayload.unstructured "hi" }).2).context =
        (if ({ responses := [], conversationId := none, userId := none
             , contextSent := false } : InternalState).contextSent then none
         else some [("k", "v")])
    ∧ ((sendToBot
          { botUrl := "https://bot.example", userId := none, failureMessages := none
          , greetingMessages := none, context := some [("k", "v")]
          , triggerWelcomeIntent := false, languageCode := none
          , channelType := none }
          { responses := [], conversationId := none, userId := none, contextSent := false }
          { userId := none, conversationId := none
          , request := RequestPayload.unstructured "hi" }).1).contextSent = true
    ∧ ((sendToBot
          { botUrl := "https://bot.example", userId := none, failureMessages := none
          , greetingMessages := none, context := some [("k", "v")]
          , triggerWelcomeIntent := false, languageCode := none
          , channelType := none }
          ((sendToBot
            { botUrl := "https://bot.example", userId := none, failureMessages := none
            , greetingMessages := none, context := some [("k", "v")]
            , triggerWelcomeIntent := false, languageCode := none
            , channelType := none }
            { responses := [], conversationId := none, userId := none, contextSent := false }
            { userId := none, conversationId := none
            , request := RequestPayload.unstructured "hi" }).1)
          { userId := none, conversationId := none
          , request := RequestPayload.unstructured "again" }).2).context = none
    ∧ (failureHandler 0
          { botUrl := "https://bot.example", userId := none, failureMessages := none
          , greetingMessages := none, context := some [("k", "v")]
          , triggerWelcomeIntent := false, languageCode := none
          , channelType := none }
          { responses := [], conversationId := none, userId := none
          , contextSent := false }).contextSent =
        ({ responses := [], conversationId := none, userId := none
         , contextSent := false } : InternalState).contextSent
    ∧ (messageResposeHandler 0 none
          { responses := [], conversationId := none, userId := none
          , contextSent := false }).contextSent =
        ({ responses := [], conversationId := none, userId := none
         , contextSent := false } : InternalState).contextSent
    ∧ (reset { responses := [], conversationId := none, userId := none
             , contextSent := false }).contextSent =
        ({ responses := [], conversationId := none, userId := none
         , contextSent := false } : InternalState).contextSent) :=
  ⟨rfl, contextSent_oneShot _ [("k", "v")] _ _ _ 0 none rfl⟩

/-- Claim C4: on outbound failure the handler appends exactly one
synthesized bot response to the timeline; its payload carries no
`conversationId`, its message texts are exactly the configured
`failureMessages` (falling back, when none are configured, to the single
built-in default message — `defaultFailureMessages` has length one), and
every synthesized message has an empty choices list and no `messageId`.
The handler is a total function of the state, so no error propagates to
the caller. -/
theorem failureHandler_synthesizes (t : Time) (config : Config) (st : InternalState) :
    ∃ p : BotResponsePayload,
      (failureHandler t config st).responses = st.responses ++ [Response.bot t p]
      ∧ p.conversationId = none
      ∧ p.messages.map BotMessage.text = config.failureMessages.getD defaultFailureMessages
      ∧ (∀ m ∈ p.messages, m.choices = [] ∧ m.messageId = none)
      ∧ defaultFailureMessages.length = 1 := by
  refine ⟨_, rfl, rfl, ?_, ?_, rfl⟩
  · cases config.failureMessages <;> simp [List.map_map, Function.comp_def]
  · intro m hm
    simp only [List.mem_map] at hm
    obtain ⟨s, hs, rfl⟩ := hm
    exact ⟨rfl, rfl⟩

/-- Claim C5: `reset()` clears `conversationId` to undefined — so
`currentConversationId` returns undefined afterwards — and changes nothing
else: the responses timeline, `userId`, and `contextSent` are untouched. -/
theorem reset_clears_only_conversationId (st : InternalState) :
    currentConversationId (reset st) = none
    ∧ (reset st).conversationId = none
    ∧ (reset st).responses = st.responses
    ∧ (reset st).userId = st.userId
    ∧ (reset st).contextSent = st.contextSent :=
  ⟨rfl, rfl, rfl, rfl, rfl⟩

/-- Claim C6: `sendSlots`, `sendIntent`, and `sendStructured` dispatch an
outbound structured request without appending anything to the timeline:
immediately after the synchronous part of the call, `responses` is
unchanged. -/
theorem structured_sends_no_append (config : Config) (st : InternalState)
    (slots : List Slot) (intentId : String) (structured : StructuredRequest) :
    ((sendSlotsOp config slots st).1).responses = st.responses
    ∧ ((sendIntentOp config intentId st).1).responses = st.responses
    ∧ ((sendStructuredOp config structured st).1).responses = st.responses
    ∧ (sendSlotsOp config slots st).2.request =
        RequestPayload.structured { choiceId := none, intentId := none, slots := some slots }
    ∧ (sendIntentOp config intentId st).2.request =
        RequestPayload.structured { choiceId := none, intentId := some intentId, slots := none }
    ∧ (sendStructuredOp config structured st).2.request =
        RequestPayload.structured structured :=
  ⟨sendToBot_responses .., sendToBot_responses .., sendToBot_responses .., rfl, rfl, rfl⟩

/-- Claim C7 counterexample: on a string frame whose content makes
`JSON.parse` throw, the inbound handler propagates the exception
(`Except.error`) — refuting the part of the claim stating that no
exception escapes the inbound handler. -/
theorem onmessage_malformed_cex :
    onmessage 0 (fun _ => ParseOutcome.throw) (FrameData.str "nope")
        { responses := [], conversationId := none, userId := none, contextSent := false }
      = Except.error () := rfl

/-- Claim C7 amended: a malformed string frame appends no timeline entry
and produces no state change or notification — the handler never reaches
the response-handling path — but the parse exception propagates uncaught
out of the inbound handler (there is no surrounding try/catch). -/
theorem onmessage_malformed_throws (t : Time) (parse : String → ParseOutcome)
    (s : String) (st : InternalState) (h : parse s = ParseOutcome.throw) :
    onmessage t parse (FrameData.str s) st = Except.error () := by
  simp [onmessage, h]

/-- Claim C7 amended witness: the escaping parse exception evaluated on a
concrete always-throwing parse and a fresh internal state. -/
theorem onmessage_malformed_throws_witness :
    (fun _ : String => ParseOutcome.throw) "x" = ParseOutcome.throw
    ∧ onmessage 0 (fun _ : String => ParseOutcome.throw) (FrameData.str "x")
        { responses := [], conversationId := none, userId := none, contextSent := false }
      = Except.error () :=
  ⟨rfl, onmessage_malformed_throws 0 (fun _ => ParseOutcome.throw) "x" _ rfl⟩

/-- Claim C8 counterexample: the registry `[7, 7]` is reachable by
subscribing the same function reference twice; unsubscribing it then
removes both registrations, not exactly one — refuting "exactly one
registration is removed". -/
theorem unsubscribe_duplicate_cex :
    (unsubscribe (subscribe (subscribe [] 7) 7) 7).length ≠
      (subscribe (subscribe [] 7) 7).length - 1 := by
  decide

/-- Claim C8 amended: `unsubscribe(fn)` removes every registration equal
to `fn` by identity (the number removed equals `fn`'s registration count,
so exactly one is removed precisely when `fn` was registered once, and
every other identity's registrations are preserved), and re-subscribing
the same function reference afterwards is a fresh registration appended
at the end of the notification order. -/
theorem unsubscribe_removes_every_match (subs : List SubscriberId) (f g : SubscriberId) :
    f ∉ unsubscribe subs f
    ∧ (unsubscribe subs f).length + subs.count f = subs.length
    ∧ (unsubscribe subs f).count g = (if g = f then 0 else subs.count g)
    ∧ subscribe (unsubscribe subs f) f = unsubscribe subs f ++ [f] := by
  refine ⟨?_, length_filter_ne_add_count subs f, count_filter_ne subs f g, rfl⟩
  simp [unsubscribe, List.mem_filter]

/-- Claim C9: calling `sendChoice` twice with the same choice id stamps
the bot messages exactly as calling it once: the second call's timeline is
the first call's timeline with only the duplicated user choice turn
appended. -/
theorem sendChoice_rewrite_idempotent (t1 t2 : Time) (config : Config) (c : String)
    (st : InternalState) :
    ((sendChoiceOp t2 config c ((sendChoiceOp t1 config c st).1)).1).responses
      = ((sendChoiceOp t1 config c st).1).responses ++
          [Response.user t2 (UserResponsePayload.choice c)] := by
  rw [sendChoiceOp_responses, sendChoiceOp_responses]
  show (sendChoiceResponses t1 c st.responses).map (stampResponse c) ++
      [Response.user t2 (UserResponsePayload.choice c)] = _
  unfold sendChoiceResponses
  rw [List.map_append, List.map_map,
    show (stampResponse c) ∘ (stampResponse c) = stampResponse c from
      funext fun r => stampResponse_idem c r]
  rfl

/-- Claim C10: a resolved reply whose parsed payload is falsy
(`null`/`undefined`) causes no state change at all: `setState` is never
invoked (so no subscriber is notified and nothing is appended), the state
is returned unchanged, and the falsy reply is discarded exactly like a
pending sentinel. -/
theorem falsy_reply_discarded (t : Time) (st : InternalState) (r : RawReply) :
    messageResposeHandlerStep t none st = none
    ∧ messageResposeHandler t none st = st
    ∧ messageResposeHandlerStep t (some { r with isPending := true }) st =
        messageResposeHandlerStep t none st := by
  refine ⟨rfl, rfl, ?_⟩
  simp [messageResposeHandlerStep]

end ChatSDK
